import Mathlib

/-!
# Courier channel handlers: ClickSend and Temba Chat

A shallow embedding of `handlers/clicksend/clicksend.go` and
`handlers/tembachat/handler.go`.

Both handlers are effectful Go methods.  Each one is embedded as a pure
function that returns the Go return values together with the ordered list of
effects the method performed on its collaborators (backend, HTTP client,
channel logger, response writer).  Results of calls into collaborators that
are not part of the handler (the HTTP round trip, the segmenter, the backend
write, the URN validator, the URL parser of `http.NewRequest`, and the library
call `jsonparser.GetString` on the bytes of a response body) are supplied by an
environment record.
-/

namespace courier

/-! ## Canonical message model -/

/-- Modelled from the spec: the fixed enumeration of statuses of section 4.3
(the Go constants `courier.MsgWired`, `courier.MsgErrored`, ... are declared
outside the handler files). -/
inductive MsgStatusValue where
  | Wired
  | Sent
  | Delivered
  | Errored
  | Failed
  deriving DecidableEq, Repr

/-- Modelled from the spec: a channel configuration value; the configuration is
"a mapping of string keys to string/boolean values". -/
inductive ConfigValue where
  | str (s : String)
  | bool (b : Bool)
  | num (n : Int)
  deriving DecidableEq, Repr

/-- Modelled from the spec: a channel is a configured endpoint with an
identifier, an address (the sending identity) and a configuration mapping. -/
structure Channel where
  uuid : String
  address : String
  config : List (String × ConfigValue)
  deriving DecidableEq, Repr

/-- Modelled from the spec: `Channel.StringConfigForKey(key, default)` reads a
string configuration value; an absent key (or a value that is not a string)
yields the default. -/
def Channel.StringConfigForKey (c : Channel) (key dflt : String) : String :=
  match c.config.lookup key with
  | some (.str s) => s
  | _ => dflt

/-- Modelled from the spec: configuration key of the user name, `courier.ConfigUsername`. -/
def ConfigUsername : String := "username"

/-- Modelled from the spec: configuration key of the password, `courier.ConfigPassword`. -/
def ConfigPassword : String := "password"

/-- Modelled from the spec: configuration key of the alternate send URL,
`courier.ConfigSendURL`. -/
def ConfigSendURL : String := "send_url"

/-- A scheme-qualified address (`urns.URN`) held as its parts: scheme, path (the
identity part), query and display. -/
structure URN where
  scheme : String
  path : String
  query : String
  display : String
  deriving DecidableEq, Repr

/-- The accessor `urn.Path()`. -/
def URN.Path (u : URN) : String := u.path

/-- The textual form of a URN, `scheme:path`, followed by `?query` and
`#display` when these are present. -/
def URN.toString (a : URN) : String :=
  a.scheme ++ ":" ++ a.path
    ++ (if a.query = "" then "" else "?" ++ a.query)
    ++ (if a.display = "" then "" else "#" ++ a.display)

/-- The value `urns.NilURN`. -/
def NilURN : URN := { scheme := "", path := "", query := "", display := "" }

/-- The message value handed to `Send`, with the accessors the two handlers
read (`ID`, `Channel`, `URN`, `Text`, `Attachments`, `Origin`, `UserID`); the
fields follow `test.MockMsg`. -/
structure Msg where
  id : Int
  channel : Channel
  urn : URN
  text : String
  attachments : List String
  origin : String
  userID : Int
  deriving DecidableEq, Repr

/-- The status object created by the backend for one send attempt and mutated by
the handler.  `externalID` is `none` until `SetExternalID` is called. -/
structure MsgStatus where
  channelUUID : String
  id : Int
  status : MsgStatusValue
  externalID : Option String
  deriving DecidableEq, Repr

/-- The backend constructor `NewMsgStatusForID` / `NewStatusUpdate`. -/
def NewMsgStatusForID (c : Channel) (id : Int) (s : MsgStatusValue) : MsgStatus :=
  { channelUUID := c.uuid, id := id, status := s, externalID := none }

/-- The mutator `status.SetExternalID(id)`. -/
def MsgStatus.SetExternalID (st : MsgStatus) (id : String) : MsgStatus :=
  { st with externalID := some id }

/-- The mutator `status.SetStatus(s)`. -/
def MsgStatus.SetStatus (st : MsgStatus) (s : MsgStatusValue) : MsgStatus :=
  { st with status := s }

/-! ## HTTP exchanges and effects -/

/-- An outgoing HTTP request; `β` is the type of the payload that is encoded
as the request body. -/
structure Request (β : Type) where
  method : String
  url : String
  headers : List (String × String)
  basicAuth : Option (String × String)
  body : β

/-- What `RequestHTTP` returns: a transport error, or a response with its status
code and the bytes of its body. -/
inductive HTTPResult where
  | failure (err : String)
  | response (statusCode : Int) (body : String)

/-- The Go test `err != nil || resp.StatusCode/100 != 2`, negated: the exchange
completed and the status code divided by 100 (truncating) is 2. -/
def HTTPResult.is2xx : HTTPResult → Bool
  | .failure _ => false
  | .response code _ => decide (Int.tdiv code 100 = 2)

/-- An effect performed by a `Send` method on one of its collaborators.
`http req res` is a call of `RequestHTTP` with the request `req` that returned
`res`.  `httpNil res` is a call of `RequestHTTP` with a nil request; `res` is what
the call returned, `none` when it did not return. -/
inductive Effect (β : Type) where
  | newStatus (channelUUID : String) (id : Int) (s : MsgStatusValue)
  | http (req : Request β) (res : HTTPResult)
  | httpNil (res : Option HTTPResult)
  | logError (msg : String)
  | setExternalID (id : String)
  | setStatus (s : MsgStatusValue)

/-- The Go return values `(status, err)` of `Send` together with the effects
performed, in order.  `returned` is false when the method did not return to its
caller because a callee did not return; `status` and `err` are then `none`. -/
structure Outcome (β : Type) where
  status : Option MsgStatus
  err : Option String
  effects : List (Effect β)
  returned : Bool := true

/-- Put effects that happened earlier in front of an outcome. -/
def Outcome.after {β : Type} (es : List (Effect β)) (o : Outcome β) : Outcome β :=
  { o with effects := es ++ o.effects }

/-- The requests of the HTTP calls among a list of effects, in order. -/
def httpRequests {β : Type} : List (Effect β) → List (Request β)
  | [] => []
  | .http req _ :: es => req :: httpRequests es
  | _ :: es => httpRequests es

/-- The number of calls of `RequestHTTP` among a list of effects, with or
without a request. -/
def httpCallCount {β : Type} : List (Effect β) → Nat
  | [] => 0
  | .http _ _ :: es => httpCallCount es + 1
  | .httpNil _ :: es => httpCallCount es + 1
  | _ :: es => httpCallCount es

/-- The messages given to the channel logger as errors, in order. -/
def loggedErrors {β : Type} : List (Effect β) → List String
  | [] => []
  | .logError m :: es => m :: loggedErrors es
  | _ :: es => loggedErrors es

end courier

/-! ## ClickSend -/

namespace clicksend

open courier

/-- The package variable `maxMsgLength`. -/
def maxMsgLength : Nat := 1224

/-- The package variable `sendURL`. -/
def sendURL : String := "https://rest.clicksend.com/v3/sms/send"

/-- One element of `mtPayload.Messages`. -/
structure mtMessage where
  To : String
  From : String
  Body : String
  Source : String
  deriving DecidableEq, Repr

/-- The request payload `mtPayload`; `Messages` is a Go array of length one, so
it is held as its single element. -/
structure mtPayload where
  Messages : mtMessage
  deriving DecidableEq, Repr

/-- Collaborators of the ClickSend `Send`: attachment folding and segmentation
(package `handlers`), the HTTP round trip, and the library call
`jsonparser.GetString`.  The round trip may answer differently on each call:
`RequestHTTP i req` is the result of the call number `i` (from zero) of the
attempt when it carries `req`.  `GetString data keys` is the pair `(value, err)`
that `jsonparser.GetString(data, keys...)` returns on the bytes `data`, with
`none` for a nil error. -/
structure Env where
  GetTextAndAttachments : Msg → String
  SplitMsgByChannel : Channel → String → Nat → List String
  RequestHTTP : Nat → Request mtPayload → HTTPResult
  GetString : String → List String → String × Option String

/-- The request built in the loop body for one part. -/
def buildRequest (msg : Msg) (username password part : String) : Request mtPayload :=
  { method := "POST"
    url := sendURL
    headers := [("Content-Type", "application/json"), ("Accept", "application/json")]
    basicAuth := some (username, password)
    body := { Messages := { To := msg.urn.Path, From := msg.channel.address,
                            Body := part, Source := "courier" } } }

/-- The key path `"data", "messages", "[0]", "status"`. -/
def statusPath : List String := ["data", "messages", "[0]", "status"]

/-- The key path `"data", "messages", "[0]", "message_id"`. -/
def messageIDPath : List String := ["data", "messages", "[0]", "message_id"]

/-- The loop `for _, part := range parts` of `Send`, followed by the final
`return status, nil`.  `i` is the number of HTTP calls made so far and `st` the
current value of the status object.  The call `http.NewRequest` is given the
constant method `POST`, the constant URL `sendURL` and an in-memory body, for
which it returns no error; its error branch is therefore not part of the
function. -/
def sendParts (env : Env) (msg : Msg) (username password : String) :
    Nat → List String → MsgStatus → Outcome mtPayload
  | _, [], st => { status := some st, err := none, effects := [] }
  | i, part :: rest, st =>
    let req := buildRequest msg username password part
    let res := env.RequestHTTP i req
    match res with
    | .failure _ => { status := some st, err := none, effects := [.http req res] }
    | .response code body =>
      if Int.tdiv code 100 ≠ 2 then
        { status := some st, err := none, effects := [.http req res] }
      else
        let s := (env.GetString body statusPath).1
        if s ≠ "SUCCESS" then
          { status := some st, err := none,
            effects := [.http req res, .logError ("received non SUCCESS status: " ++ s)] }
        else
          let r := env.GetString body messageIDPath
          if r.2 ≠ none then
            { status := some st, err := none,
              effects := [.http req res, .logError "unable to get message_id for message"] }
          else
            let st1 := (st.SetExternalID r.1).SetStatus .Wired
            (sendParts env msg username password (i + 1) rest st1).after
              [.http req res, .setExternalID r.1, .setStatus .Wired]

/-- The method `handler.Send` of the ClickSend handler. -/
def Send (env : Env) (msg : Msg) : Outcome mtPayload :=
  let username := msg.channel.StringConfigForKey ConfigUsername ""
  if username = "" then
    { status := none, err := some "Missing 'username' config for CS channel", effects := [] }
  else
    let password := msg.channel.StringConfigForKey ConfigPassword ""
    if password = "" then
      { status := none, err := some "Missing 'password' config for CS channel", effects := [] }
    else
      let status := NewMsgStatusForID msg.channel msg.id .Errored
      let parts := env.SplitMsgByChannel msg.channel (env.GetTextAndAttachments msg) maxMsgLength
      (sendParts env msg username password 0 parts status).after
        [.newStatus msg.channel.uuid msg.id .Errored]

end clicksend

/-! ## Temba Chat -/

namespace tembachat

open courier

/-- The package variable `defaultSendURL`. -/
def defaultSendURL : String := "http://chatserver:8070/send"

/-- The scheme constant `urns.WebChatScheme`. -/
def WebChatScheme : String := "webchat"

/-- Modelled from the spec: `urns.NewURNFromParts` builds the URN from its
parts and validates it at construction; it returns the pair `(urn, err)`, with
the nil URN and the error when the scheme-specific shape check `validate`
fails.  The shape check itself is a parameter. -/
def NewURNFromParts (validate : URN → Option String)
    (scheme path query display : String) : URN × Option String :=
  let urn : URN := { scheme := scheme, path := path, query := query, display := display }
  match validate urn with
  | some e => (NilURN, some e)
  | none => (urn, none)

/-- The decoded request body `receivePayload`, field `Msg`. -/
structure receivePayloadMsg where
  ChatID : String
  Text : String
  deriving DecidableEq, Repr

/-- The decoded request body `receivePayload`, field `Chat`. -/
structure receivePayloadChat where
  ChatID : String
  deriving DecidableEq, Repr

/-- The decoded request body `receivePayload`; the Go field `Type` is named
`Type_` here, `Type` being reserved. -/
structure receivePayload where
  Type_ : String
  Msg : receivePayloadMsg
  Chat : receivePayloadChat
  deriving DecidableEq, Repr

/-- Modelled from the spec: the kinds of channel event; the handler uses
`courier.EventTypeNewConversation`. -/
inductive ChannelEventType where
  | NewConversation
  | Referral
  | StopContact
  | WelcomeMessage
  deriving DecidableEq, Repr

/-- The incoming message built by `Backend().NewIncomingMsg(c, urn, text, extID, clog)`. -/
structure MsgIn where
  channelUUID : String
  urn : URN
  text : String
  externalID : String
  deriving DecidableEq, Repr

/-- The channel event built by `Backend().NewChannelEvent(c, eventType, urn, clog)`. -/
structure ChannelEvent where
  channelUUID : String
  eventType : ChannelEventType
  urn : URN
  deriving DecidableEq, Repr

/-- The backend constructor `NewIncomingMsg`. -/
def NewIncomingMsg (c : Channel) (urn : URN) (text extID : String) : MsgIn :=
  { channelUUID := c.uuid, urn := urn, text := text, externalID := extID }

/-- The backend constructor `NewChannelEvent`. -/
def NewChannelEvent (c : Channel) (t : ChannelEventType) (urn : URN) : ChannelEvent :=
  { channelUUID := c.uuid, eventType := t, urn := urn }

/-- An element of the returned slice `[]courier.Event`. -/
inductive Event where
  | msg (m : MsgIn)
  | channelEvent (e : ChannelEvent)
  deriving DecidableEq, Repr

/-- Collaborators of `receiveMessage`: the URN shape check, the backend write
of a channel event, and the helpers of package `handlers` / `courier` that
write to the backend and to the HTTP response.  Each helper returns the Go
error value (`none` for `nil`); `WriteMsgsAndResponse` returns its pair. -/
structure RecvEnv where
  validateURN : URN → Option String
  WriteChannelEvent : ChannelEvent → Option String
  WriteChannelEventSuccess : ChannelEvent → Option String
  WriteMsgsAndResponse : List MsgIn → List Event × Option String
  WriteAndLogRequestError : String → Option String
  WriteAndLogRequestIgnored : String → Option String

/-- An effect performed by `receiveMessage` on one of its collaborators. -/
inductive RecvEffect where
  | newIncomingMsg (m : MsgIn)
  | writeMsgsAndResponse (msgs : List MsgIn)
  | newChannelEvent (e : ChannelEvent)
  | writeChannelEvent (e : ChannelEvent)
  | writeChannelEventSuccess (e : ChannelEvent)
  | requestError (err : String)
  | requestIgnored (details : String)
  deriving DecidableEq, Repr

/-- The Go return values `(events, err)` of `receiveMessage` (a nil slice is the
empty list) together with the effects performed, in order. -/
structure RecvOutcome where
  events : List Event
  err : Option String
  effects : List RecvEffect
  deriving DecidableEq, Repr

/-- The method `handler.receiveMessage`. -/
def receiveMessage (env : RecvEnv) (c : Channel) (payload : receivePayload) : RecvOutcome :=
  if payload.Type_ = "msg_in" then
    let r := NewURNFromParts env.validateURN WebChatScheme payload.Msg.ChatID "" ""
    match r.2 with
    | some e =>
      { events := [], err := env.WriteAndLogRequestError e, effects := [.requestError e] }
    | none =>
      let msg := NewIncomingMsg c r.1 payload.Msg.Text ""
      let w := env.WriteMsgsAndResponse [msg]
      { events := w.1, err := w.2,
        effects := [.newIncomingMsg msg, .writeMsgsAndResponse [msg]] }
  else if payload.Type_ = "chat_started" then
    let r := NewURNFromParts env.validateURN WebChatScheme payload.Chat.ChatID "" ""
    match r.2 with
    | some e =>
      { events := [], err := env.WriteAndLogRequestError e, effects := [.requestError e] }
    | none =>
      let evt := NewChannelEvent c .NewConversation r.1
      match env.WriteChannelEvent evt with
      | some e =>
        { events := [], err := some e,
          effects := [.newChannelEvent evt, .writeChannelEvent evt] }
      | none =>
        { events := [.channelEvent evt], err := env.WriteChannelEventSuccess evt,
          effects := [.newChannelEvent evt, .writeChannelEvent evt,
                      .writeChannelEventSuccess evt] }
  else
    { events := [], err := env.WriteAndLogRequestIgnored "", effects := [.requestIgnored ""] }

/-- The request payload `sendPayload`. -/
structure sendPayload where
  MsgID : Int
  ChatID : String
  Text : String
  Origin : String
  UserID : Int
  deriving DecidableEq, Repr

/-- Collaborators of the Temba Chat `Send`.  `parseURL url` tells whether the
library accepts `url` when `http.NewRequest` parses it.  `RequestHTTP req` is
what the helper returns for the request `req`.  `RequestHTTPNil` is what the
helper does when it is handed a nil request: `some res` when it returns `res`,
`none` when it does not return. -/
structure Env where
  parseURL : String → Bool
  RequestHTTP : Request sendPayload → HTTPResult
  RequestHTTPNil : Option HTTPResult

/-- The local variable `sendURL` of `Send`: the configured send URL, or the
default one, followed by the channel query. -/
def sendURLOf (msg : Msg) : String :=
  msg.channel.StringConfigForKey ConfigSendURL defaultSendURL
    ++ "?channel=" ++ msg.channel.uuid

/-- The local variable `payload` of `Send`. -/
def payloadOf (msg : Msg) : sendPayload :=
  { MsgID := msg.id, ChatID := msg.urn.Path, Text := msg.text,
    Origin := msg.origin, UserID := msg.userID }

/-- The library call `http.NewRequest(method, url, body)` for a valid method and
an in-memory body: it returns the request when the URL parses, and a nil
request (with an error) when it does not. -/
def NewRequest (env : Env) (method url : String) (body : sendPayload) :
    Option (Request sendPayload) :=
  if env.parseURL url then
    some { method := method, url := url, headers := [], basicAuth := none, body := body }
  else
    none

/-- The end of `Send` once `RequestHTTP` has returned `res`: the test
`err != nil || resp.StatusCode/100 != 2`, the downgrade of the status, and the
return.  `call` is the effect of the call that returned `res`. -/
def finish (msg : Msg) (status : MsgStatus) (call : Effect sendPayload) :
    HTTPResult → Outcome sendPayload
  | .failure _ =>
    { status := some (status.SetStatus .Errored), err := none,
      effects := [.newStatus msg.channel.uuid msg.id .Wired, call, .setStatus .Errored] }
  | .response code _ =>
    if Int.tdiv code 100 ≠ 2 then
      { status := some (status.SetStatus .Errored), err := none,
        effects := [.newStatus msg.channel.uuid msg.id .Wired, call, .setStatus .Errored] }
    else
      { status := some status, err := none,
        effects := [.newStatus msg.channel.uuid msg.id .Wired, call] }

/-- The method `handler.Send` of the Temba Chat handler.  The source discards
the error of `http.NewRequest`, so that `req` is nil when the send URL does not
parse; the status object is created next, as `Wired`, and `RequestHTTP` is
called with `req`, nil or not. -/
def Send (env : Env) (msg : Msg) : Outcome sendPayload :=
  let req := NewRequest env "POST" (sendURLOf msg) (payloadOf msg)
  let status := NewMsgStatusForID msg.channel msg.id .Wired
  match req with
  | some r => finish msg status (.http r (env.RequestHTTP r)) (env.RequestHTTP r)
  | none =>
    match env.RequestHTTPNil with
    | some res => finish msg status (.httpNil (some res)) res
    | none =>
      { status := none, err := none,
        effects := [.newStatus msg.channel.uuid msg.id .Wired, .httpNil none],
        returned := false }

end tembachat

/-! ## The pessimistic-default discipline, as the specification words it -/

namespace courier

/-- The discipline of section 4.3 of the specification read over a list of
effects: the status object is created once, as `Errored`; no call of
`RequestHTTP` is made before it is created; and every later change of its status is a change to
`Wired` made when the most recent HTTP exchange was a completed 2xx exchange.
`created` tells whether the status object exists already, `ok` whether the most
recent exchange succeeded. -/
def pessimisticFrom {β : Type} : Bool → Bool → List (Effect β) → Bool
  | _, _, [] => true
  | created, ok, .newStatus _ _ s :: es =>
    !created && decide (s = .Errored) && pessimisticFrom true ok es
  | created, _, .http _ res :: es => created && pessimisticFrom created res.is2xx es
  | created, _, .httpNil res :: es =>
    created && pessimisticFrom created (res.elim false HTTPResult.is2xx) es
  | created, ok, .setStatus s :: es =>
    created && ok && decide (s = .Wired) && pessimisticFrom created ok es
  | created, ok, .logError _ :: es => pessimisticFrom created ok es
  | created, ok, .setExternalID _ :: es => pessimisticFrom created ok es

/-- The discipline of `pessimisticFrom` for a whole send attempt. -/
def pessimistic {β : Type} (es : List (Effect β)) : Bool := pessimisticFrom false false es

end courier

/-! ## Vocabulary of the properties -/

namespace courier

/-- The call completed without transport error and with a 2xx status code. -/
def Completed2xx : HTTPResult → Prop
  | .failure _ => False
  | .response code _ => 200 ≤ code ∧ code ≤ 299

/-- The external ids given to `SetExternalID` among a list of effects, in order. -/
def externalIDsSet {β : Type} : List (Effect β) → List String
  | [] => []
  | .setExternalID id :: es => id :: externalIDsSet es
  | _ :: es => externalIDsSet es

end courier

namespace clicksend

open courier

/-- The channel has the user name `u` and the password `p` configured, both
non-empty. -/
def Configured (c : Channel) (u p : String) : Prop :=
  c.config.lookup "username" = some (.str u) ∧ u ≠ "" ∧
  c.config.lookup "password" = some (.str p) ∧ p ≠ ""

/-- The configuration entry for `key` is absent or is the empty string. -/
def EmptyOrAbsent (c : Channel) (key : String) : Prop :=
  c.config.lookup key = none ∨ c.config.lookup key = some (.str "")

/-- The exchange succeeded with a 2xx response in whose body `GetString` reads
the status `SUCCESS` and, without error, the message id `id`. -/
def Accepted (env : Env) : HTTPResult → String → Prop
  | .failure _, _ => False
  | .response code body, id =>
    200 ≤ code ∧ code ≤ 299 ∧ (env.GetString body statusPath).1 = "SUCCESS" ∧
    env.GetString body messageIDPath = (id, none)

/-- The exchange ended in a transport error or in a response that is not 2xx. -/
def TransportOrNon2xx : HTTPResult → Prop
  | .failure _ => True
  | .response code _ => ¬ (200 ≤ code ∧ code ≤ 299)

/-- The exchange returned a 2xx response in whose body the status that
`GetString` reads is not `SUCCESS`. -/
def NonSuccess (env : Env) : HTTPResult → Prop
  | .failure _ => False
  | .response code body =>
    200 ≤ code ∧ code ≤ 299 ∧ (env.GetString body statusPath).1 ≠ "SUCCESS"

/-- The exchange returned a 2xx response in whose body `GetString` reads the
status `SUCCESS` and finds no message id: the lookup of `message_id` returns an
error. -/
def SuccessWithoutID (env : Env) : HTTPResult → Prop
  | .failure _ => False
  | .response code body =>
    200 ≤ code ∧ code ≤ 299 ∧ (env.GetString body statusPath).1 = "SUCCESS" ∧
    (env.GetString body messageIDPath).2 ≠ none

/-- The parts `Send` iterates over. -/
def partsOf (env : Env) (msg : Msg) : List String :=
  env.SplitMsgByChannel msg.channel (env.GetTextAndAttachments msg) maxMsgLength

/-! ### Sample inputs -/

/-- A channel with credentials `u` / `p`. -/
def sampleChannel : Channel :=
  { uuid := "8eb23e93-5ecb-45ba-b726-3b064e0c56ab", address := "2020",
    config := [("username", .str "u"), ("password", .str "p")] }

/-- A channel whose configuration has a user name and no password. -/
def channelNoPassword : Channel :=
  { uuid := "8eb23e93-5ecb-45ba-b726-3b064e0c56ab", address := "2020",
    config := [("username", .str "u")] }

/-- An outgoing message on `sampleChannel`. -/
def sampleMsg : Msg :=
  { id := 10, channel := sampleChannel, urn := { scheme := "tel", path := "+250788383383", query := "", display := "" },
    text := "Simple Message", attachments := [], origin := "flow", userID := 0 }

/-- The same message on the channel without password. -/
def msgNoPassword : Msg := { sampleMsg with channel := channelNoPassword }

/-- The provider body
`{"data":{"messages":[{"status":"SUCCESS","message_id":"<id>"}]}}`. -/
def bodySuccess (id : String) : String :=
  "\x7b\"data\":\x7b\"messages\":[\x7b\"status\":\"SUCCESS\",\"message_id\":\""
    ++ id ++ "\"\x7d]\x7d\x7d"

/-- The provider body `{"data":{"messages":[{"status":"SUCCESS"}]}}`, which has
no message id. -/
def bodySuccessNoID : String :=
  "\x7b\"data\":\x7b\"messages\":[\x7b\"status\":\"SUCCESS\"\x7d]\x7d\x7d"

/-- The values of `jsonparser.GetString` on the sample bodies `bodySuccess "id1"`,
`bodySuccess "abc"` and `bodySuccessNoID` for the two key paths of `Send`; the
sample environments use it on these bodies only. -/
def sampleGetString (body : String) (keys : List String) : String × Option String :=
  if keys = statusPath then
    if body = bodySuccess "id1" ∨ body = bodySuccess "abc" ∨ body = bodySuccessNoID then
      ("SUCCESS", none)
    else ("", some "Key path not found")
  else if keys = messageIDPath then
    if body = bodySuccess "id1" then ("id1", none)
    else if body = bodySuccess "abc" then ("abc", none)
    else ("", some "Key path not found")
  else ("", some "Key path not found")

/-- An environment that sends the text as one part and answers every call
with `res`. -/
def envOnePart (res : HTTPResult) : Env :=
  { GetTextAndAttachments := fun m => m.text
    SplitMsgByChannel := fun _ text _ => [text]
    RequestHTTP := fun _ _ => res
    GetString := sampleGetString }

/-- An environment that sends two parts, `"first"` and `"second"`, and answers
call number `i` with `answers i`. -/
def envTwoParts (answers : Nat → HTTPResult) : Env :=
  { GetTextAndAttachments := fun m => m.text
    SplitMsgByChannel := fun _ _ _ => ["first", "second"]
    RequestHTTP := fun i _ => answers i
    GetString := sampleGetString }

/-- Both calls accepted, with message ids `id1` and then `abc`. -/
def answersBothAccepted : Nat → HTTPResult
  | 0 => .response 200 (bodySuccess "id1")
  | _ => .response 200 (bodySuccess "abc")

/-- The first call accepted with message id `id1`, every later call answered
with status code 500 and an empty body. -/
def answersSecondFails : Nat → HTTPResult
  | 0 => .response 200 (bodySuccess "id1")
  | _ => .response 500 ""

end clicksend

namespace tembachat

open courier

/-- The request that `http.NewRequest` returns in `Send` when the send URL
parses. -/
def requestOf (msg : Msg) : Request sendPayload :=
  { method := "POST", url := sendURLOf msg, headers := [], basicAuth := none,
    body := payloadOf msg }

/-- The effect of the single call of `RequestHTTP` in `Send`. -/
def callEffect (env : Env) (msg : Msg) : Effect sendPayload :=
  match NewRequest env "POST" (sendURLOf msg) (payloadOf msg) with
  | some r => .http r (env.RequestHTTP r)
  | none => .httpNil env.RequestHTTPNil

/-- What the single call of `RequestHTTP` in `Send` returned, `none` when it did
not return. -/
def callResult (env : Env) (msg : Msg) : Option HTTPResult :=
  match NewRequest env "POST" (sendURLOf msg) (payloadOf msg) with
  | some r => some (env.RequestHTTP r)
  | none => env.RequestHTTPNil

/-- A Temba Chat channel without a configured send URL. -/
def sampleChannel : Channel :=
  { uuid := "8eb23e93-5ecb-45ba-b726-3b064e0c56ab", address := "", config := [] }

/-- An outgoing message on `sampleChannel`. -/
def sampleMsg : Msg :=
  { id := 10, channel := sampleChannel, urn := { scheme := "webchat", path := "c1", query := "", display := "" },
    text := "Simple Message", attachments := [], origin := "flow", userID := 0 }

/-- The same message on a channel whose configured send URL opens a bracket in
the host and does not close it. -/
def msgBadURL : Msg :=
  { sampleMsg with
    channel := { sampleChannel with config := [("send_url", .str "http://[::1/send")] } }

/-- The verdict of the URL parser on the sample URLs: a URL whose square
brackets do not match is rejected, as is the host `[::1` that lacks its closing
bracket. -/
def sampleParseURL (url : String) : Bool :=
  url.toList.count '[' == url.toList.count ']'

/-- An environment that answers the call with `res`, and in which the helper
does not return when it is handed a nil request. -/
def envConst (res : HTTPResult) : Env :=
  { parseURL := sampleParseURL, RequestHTTP := fun _ => res, RequestHTTPNil := none }

/-- A receive environment whose shape check rejects the empty path only and
whose writes all succeed. -/
def sampleRecvEnv : RecvEnv :=
  { validateURN := fun a => if a.path = "" then some "invalid path" else none
    WriteChannelEvent := fun _ => none
    WriteChannelEventSuccess := fun _ => none
    WriteMsgsAndResponse := fun ms => (ms.map Event.msg, none)
    WriteAndLogRequestError := fun e => some e
    WriteAndLogRequestIgnored := fun _ => none }

/-- The payload of the scenario `chat_started` for chat `c1`. -/
def payloadChatStarted : receivePayload :=
  { Type_ := "chat_started", Msg := { ChatID := "", Text := "" }, Chat := { ChatID := "c1" } }

/-- A payload with a discriminator the handler does not know. -/
def payloadUnknown : receivePayload :=
  { Type_ := "typing", Msg := { ChatID := "c1", Text := "" }, Chat := { ChatID := "c1" } }

end tembachat

/-! ## Auxiliary facts -/

namespace courier

/-- Truncating division by 100 gives 2 exactly on the codes 200 to 299. -/
theorem tdiv_hundred_eq_two (c : Int) : Int.tdiv c 100 = 2 ↔ 200 ≤ c ∧ c ≤ 299 := by
  constructor
  · intro h
    rcases le_or_lt 0 c with hc | hc
    · rw [Int.tdiv_eq_ediv hc (by norm_num)] at h
      omega
    · have h1 : (0 : Int) ≤ Int.tdiv (-c) 100 := Int.tdiv_nonneg (by omega) (by norm_num)
      rw [Int.neg_tdiv] at h1
      omega
  · rintro ⟨h1, h2⟩
    rw [Int.tdiv_eq_ediv (by omega) (by norm_num)]
    omega

/-- The HTTP requests of a concatenation. -/
theorem httpRequests_append {β : Type} (xs ys : List (Effect β)) :
    httpRequests (xs ++ ys) = httpRequests xs ++ httpRequests ys := by
  induction xs with
  | nil => rfl
  | cons e es ih => cases e <;> simp [httpRequests, ih]

/-- Creating the status object is not an HTTP call. -/
theorem httpRequests_after_newStatus {β : Type} (o : Outcome β) (c : String) (id : Int)
    (s : MsgStatusValue) :
    httpRequests (o.after [.newStatus c id s]).effects = httpRequests o.effects := by
  simp [Outcome.after, httpRequests]

end courier

namespace clicksend

open courier

/-- An exchange is accepted with at most one message id. -/
theorem accepted_unique (env : Env) (res : HTTPResult) (a b : String)
    (ha : Accepted env res a) (hb : Accepted env res b) : a = b := by
  cases res with
  | failure e => exact ha.elim
  | response code body =>
    obtain ⟨_, _, _, h1⟩ := ha
    obtain ⟨_, _, _, h2⟩ := hb
    rw [h1] at h2
    simpa using h2

/-- One iteration of the loop on an accepted exchange: the external id and the
status `Wired` are recorded and the loop goes on with the remaining parts. -/
theorem sendParts_accepted (env : Env) (msg : Msg) (u p : String) (i : Nat)
    (part : String) (rest : List String) (st : MsgStatus) (id : String)
    (h : Accepted env (env.RequestHTTP i (buildRequest msg u p part)) id) :
    sendParts env msg u p i (part :: rest) st =
      (sendParts env msg u p (i + 1) rest ((st.SetExternalID id).SetStatus .Wired)).after
        [.http (buildRequest msg u p part) (env.RequestHTTP i (buildRequest msg u p part)),
         .setExternalID id, .setStatus .Wired] := by
  rw [sendParts]
  cases hres : env.RequestHTTP i (buildRequest msg u p part) with
  | failure e => rw [hres] at h; exact h.elim
  | response code body =>
    rw [hres] at h
    obtain ⟨h1, h2, h3, h4⟩ := h
    have hc : Int.tdiv code 100 = 2 := (tdiv_hundred_eq_two code).2 ⟨h1, h2⟩
    simp [hc, h3, h4]

/-- One iteration of the loop on an exchange that is not accepted: the loop
stops after this call and the status object is returned as it stands. -/
theorem sendParts_stop (env : Env) (msg : Msg) (u p : String) (i : Nat)
    (part : String) (rest : List String) (st : MsgStatus)
    (h : ∀ id, ¬ Accepted env (env.RequestHTTP i (buildRequest msg u p part)) id) :
    (sendParts env msg u p i (part :: rest) st).status = some st ∧
    (sendParts env msg u p i (part :: rest) st).err = none ∧
    httpRequests (sendParts env msg u p i (part :: rest) st).effects
      = [buildRequest msg u p part] := by
  rw [sendParts]
  cases hres : env.RequestHTTP i (buildRequest msg u p part) with
  | failure e => simp [httpRequests]
  | response code body =>
    rw [hres] at h
    by_cases hc : Int.tdiv code 100 = 2
    · by_cases hs : (env.GetString body statusPath).1 = "SUCCESS"
      · by_cases hid : (env.GetString body messageIDPath).2 = none
        · exfalso
          exact h (env.GetString body messageIDPath).1
            ⟨((tdiv_hundred_eq_two code).1 hc).1, ((tdiv_hundred_eq_two code).1 hc).2, hs,
              Prod.ext rfl hid⟩
        · simp [hc, hs, hid, httpRequests]
      · simp [hc, hs, httpRequests]
    · simp [hc, httpRequests]

end clicksend

namespace clicksend

open courier

/-- The whole loop.  There is a number `k` of leading parts whose exchanges were
accepted; the part after them, if there is one, was not accepted and is the last
one attempted.  `Send` reports no error; the status object is returned unchanged
when `k = 0`, and otherwise as `Wired` with the message id of part `k - 1`. -/
theorem sendParts_run (env : Env) (msg : Msg) (u p : String) :
    ∀ (parts : List String) (i : Nat) (st : MsgStatus),
    ∃ k, k ≤ parts.length ∧
      (∀ j part, j < k → parts[j]? = some part →
        ∃ id, Accepted env (env.RequestHTTP (i + j) (buildRequest msg u p part)) id) ∧
      (∀ part, parts[k]? = some part →
        ∀ id, ¬ Accepted env (env.RequestHTTP (i + k) (buildRequest msg u p part)) id) ∧
      httpRequests (sendParts env msg u p i parts st).effects
        = (parts.take (k + 1)).map (buildRequest msg u p) ∧
      (sendParts env msg u p i parts st).err = none ∧
      (k = 0 → (sendParts env msg u p i parts st).status = some st) ∧
      (∀ j part id, k = j + 1 → parts[j]? = some part →
        Accepted env (env.RequestHTTP (i + j) (buildRequest msg u p part)) id →
        (sendParts env msg u p i parts st).status
          = some { st with status := .Wired, externalID := some id }) := by
  intro parts
  induction parts with
  | nil =>
    intro i st
    refine ⟨0, le_refl _, ?_, ?_, ?_, ?_, ?_, ?_⟩
    · intro j part hj; omega
    · intro part h; simp at h
    · simp [sendParts, httpRequests]
    · simp [sendParts]
    · intro _; simp [sendParts]
    · intro j part id hk; omega
  | cons part rest ih =>
    intro i st
    by_cases hacc : ∃ id, Accepted env (env.RequestHTTP i (buildRequest msg u p part)) id
    · obtain ⟨id, hid⟩ := hacc
      obtain ⟨k, hk, h1, h2, h3, h4, h5, h6⟩ :=
        ih (i + 1) ((st.SetExternalID id).SetStatus .Wired)
      rw [sendParts_accepted env msg u p i part rest st id hid]
      refine ⟨k + 1, by simpa using hk, ?_, ?_, ?_, ?_, ?_, ?_⟩
      · intro j q hj hq
        cases j with
        | zero =>
          simp at hq
          subst hq
          exact ⟨id, hid⟩
        | succ j =>
          simp at hq
          have := h1 j q (by omega) hq
          rwa [show i + 1 + j = i + (j + 1) by omega] at this
      · intro q hq
        simp at hq
        have := h2 q hq
        rwa [show i + 1 + k = i + (k + 1) by omega] at this
      · simp [Outcome.after, httpRequests, h3]
      · simpa [Outcome.after] using h4
      · intro h0; omega
      · intro j q id2 hj hq hacc2
        have hjk : j = k := by omega
        subst hjk
        cases j with
        | zero =>
          simp at hq
          subst hq
          have hidd : id2 = id := accepted_unique env _ _ _ hacc2 hid
          subst hidd
          simpa [Outcome.after, MsgStatus.SetExternalID, MsgStatus.SetStatus] using h5 rfl
        | succ j =>
          simp at hq
          have hacc3 : Accepted env (env.RequestHTTP (i + 1 + j) (buildRequest msg u p q)) id2 := by
            rwa [show i + 1 + j = i + (j + 1) by omega]
          simpa [Outcome.after, MsgStatus.SetExternalID, MsgStatus.SetStatus]
            using h6 j q id2 rfl hq hacc3
    · have hno : ∀ id, ¬ Accepted env (env.RequestHTTP i (buildRequest msg u p part)) id :=
        fun id h => hacc ⟨id, h⟩
      obtain ⟨s1, s2, s3⟩ := sendParts_stop env msg u p i part rest st hno
      refine ⟨0, Nat.zero_le _, ?_, ?_, ?_, s2, fun _ => s1, ?_⟩
      · intro j q hj; omega
      · intro q hq
        simp at hq
        subst hq
        simpa using hno
      · simpa using s3
      · intro j q id hk; omega

end clicksend

namespace clicksend

open courier

/-- With both credentials configured, `Send` creates the status object as
`Errored` and runs the loop over the parts from call number zero. -/
theorem send_configured (env : Env) (msg : Msg) (u p : String)
    (hc : Configured msg.channel u p) :
    Send env msg =
      (sendParts env msg u p 0 (partsOf env msg)
          (NewMsgStatusForID msg.channel msg.id .Errored)).after
        [.newStatus msg.channel.uuid msg.id .Errored] := by
  obtain ⟨hu, hu0, hp, hp0⟩ := hc
  simp [Send, Channel.StringConfigForKey, ConfigUsername, ConfigPassword, hu, hp, hu0, hp0,
    partsOf]

/-- A transport error, a response that is not 2xx and a 2xx response that lacks
the `SUCCESS` status or the message id are not accepted. -/
theorem not_accepted_of_failed (env : Env) (res : HTTPResult)
    (h : TransportOrNon2xx res ∨ NonSuccess env res ∨ SuccessWithoutID env res) :
    ∀ id, ¬ Accepted env res id := by
  intro id hacc
  cases res with
  | failure e => exact hacc
  | response code body =>
    obtain ⟨h1, h2, h3, h4⟩ := hacc
    rcases h with h | h | h
    · exact h ⟨h1, h2⟩
    · exact h.2.2 h3
    · apply h.2.2.2
      rw [h4]

end clicksend

/-! ## ClickSend: properties of `Send` -/

namespace clicksend

open courier

/-- C1.  When the channel configuration has an empty or absent `username` or an
empty or absent `password`, `Send` returns no status update and a
missing-configuration error, and performs no effect at all; in particular it
issues no HTTP call. -/
theorem send_missing_config (env : Env) (msg : Msg)
    (h : EmptyOrAbsent msg.channel "username" ∨ EmptyOrAbsent msg.channel "password") :
    (Send env msg).status = none ∧
    ((Send env msg).err = some "Missing 'username' config for CS channel" ∨
     (Send env msg).err = some "Missing 'password' config for CS channel") ∧
    (Send env msg).effects = [] ∧
    httpRequests (Send env msg).effects = [] := by
  have key : (Send env msg).status = none ∧
      ((Send env msg).err = some "Missing 'username' config for CS channel" ∨
       (Send env msg).err = some "Missing 'password' config for CS channel") ∧
      (Send env msg).effects = [] := by
    by_cases hu : msg.channel.StringConfigForKey ConfigUsername "" = ""
    · simp [Send, hu]
    · by_cases hp : msg.channel.StringConfigForKey ConfigPassword "" = ""
      · simp [Send, hu, hp]
      · exfalso
        rcases h with h | h
        · apply hu
          rcases h with h | h <;> simp [Channel.StringConfigForKey, ConfigUsername, h]
        · apply hp
          rcases h with h | h <;> simp [Channel.StringConfigForKey, ConfigPassword, h]
  refine ⟨key.1, key.2.1, key.2.2, ?_⟩
  rw [key.2.2]
  rfl

/-- Witness for C1: a channel with a user name and no password. -/
theorem send_missing_config_witness :
    (EmptyOrAbsent msgNoPassword.channel "username" ∨
      EmptyOrAbsent msgNoPassword.channel "password") ∧
    (Send (envOnePart (.response 200 (bodySuccess "abc"))) msgNoPassword).status = none ∧
    (Send (envOnePart (.response 200 (bodySuccess "abc"))) msgNoPassword).err
      = some "Missing 'password' config for CS channel" ∧
    httpRequests (Send (envOnePart (.response 200 (bodySuccess "abc"))) msgNoPassword).effects
      = [] :=
  have hyp : EmptyOrAbsent msgNoPassword.channel "username" ∨
      EmptyOrAbsent msgNoPassword.channel "password" := Or.inr (Or.inl (by decide))
  ⟨hyp,
   (send_missing_config (envOnePart (.response 200 (bodySuccess "abc"))) msgNoPassword hyp).1,
   by rfl,
   (send_missing_config (envOnePart (.response 200 (bodySuccess "abc"))) msgNoPassword hyp).2.2.2⟩

/-- C2.  With user name and password configured and a non-empty sequence of
parts, if the exchange of every part is accepted (2xx, body status `SUCCESS`, a
message id), then one HTTP call is issued per part, in order, `Send` returns no
error, and the returned status is `Wired` with the message id reported for the
last part as external id. -/
theorem send_all_accepted (env : Env) (msg : Msg) (u p : String)
    (hc : Configured msg.channel u p) (hne : partsOf env msg ≠ []) (ids : Nat → String)
    (hall : ∀ j part, (partsOf env msg)[j]? = some part →
      Accepted env (env.RequestHTTP j (buildRequest msg u p part)) (ids j)) :
    httpRequests (Send env msg).effects = (partsOf env msg).map (buildRequest msg u p) ∧
    (Send env msg).err = none ∧
    (Send env msg).status =
      some { channelUUID := msg.channel.uuid, id := msg.id, status := .Wired,
             externalID := some (ids ((partsOf env msg).length - 1)) } := by
  rw [send_configured env msg u p hc]
  obtain ⟨k, hk, _, h2, h3, h4, _, h6⟩ :=
    sendParts_run env msg u p (partsOf env msg) 0 (NewMsgStatusForID msg.channel msg.id .Errored)
  have hlen : 0 < (partsOf env msg).length := List.length_pos.2 hne
  have hkeq : k = (partsOf env msg).length := by
    rcases Nat.lt_or_ge k (partsOf env msg).length with hlt | hge
    · exfalso
      have hget : (partsOf env msg)[k]? = some ((partsOf env msg)[k]) :=
        List.getElem?_eq_getElem hlt
      have hacc := hall k _ hget
      exact h2 _ hget (ids k) (by simpa using hacc)
    · omega
  refine ⟨?_, ?_, ?_⟩
  · rw [httpRequests_after_newStatus, h3, hkeq, List.take_of_length_le (by omega)]
  · simpa [Outcome.after] using h4
  · have hlast : (partsOf env msg).length - 1 < (partsOf env msg).length := by omega
    have hget : (partsOf env msg)[(partsOf env msg).length - 1]?
        = some ((partsOf env msg)[(partsOf env msg).length - 1]) :=
      List.getElem?_eq_getElem hlast
    have hacc := hall _ _ hget
    have := h6 ((partsOf env msg).length - 1) _ (ids ((partsOf env msg).length - 1))
      (by omega) hget (by simpa using hacc)
    simpa [Outcome.after, NewMsgStatusForID] using this

/-- Witness for C2: two parts, both accepted, the second with message id `abc`. -/
theorem send_all_accepted_witness :
    httpRequests (Send (envTwoParts answersBothAccepted) sampleMsg).effects
      = [buildRequest sampleMsg "u" "p" "first", buildRequest sampleMsg "u" "p" "second"] ∧
    (Send (envTwoParts answersBothAccepted) sampleMsg).err = none ∧
    (Send (envTwoParts answersBothAccepted) sampleMsg).status =
      some { channelUUID := "8eb23e93-5ecb-45ba-b726-3b064e0c56ab", id := 10,
             status := .Wired, externalID := some "abc" } :=
  send_all_accepted (envTwoParts answersBothAccepted) sampleMsg "u" "p"
    ⟨by decide, by decide, by decide, by decide⟩ (by decide)
    (fun j => if j = 0 then "id1" else "abc")
    (by
      intro j part hj
      match j with
      | 0 =>
        have hp : part = "first" := by simpa [partsOf, envTwoParts] using hj.symm
        subst hp
        exact ⟨by decide, by decide, rfl, rfl⟩
      | 1 =>
        have hp : part = "second" := by simpa [partsOf, envTwoParts] using hj.symm
        subst hp
        exact ⟨by decide, by decide, rfl, rfl⟩
      | n + 2 => simp [partsOf, envTwoParts] at hj)

/-- C3.  With valid configuration, if the exchange of the first part fails (a
transport error, a response that is not 2xx, or a 2xx response whose body status
is not `SUCCESS`), then the returned status is `Errored` with no external id, the
only HTTP call issued is the one of the first part, and `Send` returns no
error. -/
theorem send_first_fails (env : Env) (msg : Msg) (u p : String)
    (hc : Configured msg.channel u p) (part : String) (rest : List String)
    (hparts : partsOf env msg = part :: rest)
    (hfail : TransportOrNon2xx (env.RequestHTTP 0 (buildRequest msg u p part)) ∨
      NonSuccess env (env.RequestHTTP 0 (buildRequest msg u p part))) :
    (Send env msg).status =
      some { channelUUID := msg.channel.uuid, id := msg.id, status := .Errored,
             externalID := none } ∧
    httpRequests (Send env msg).effects = [buildRequest msg u p part] ∧
    (Send env msg).err = none := by
  rw [send_configured env msg u p hc, hparts]
  have hno := not_accepted_of_failed env _
    (hfail.elim Or.inl (fun h => Or.inr (Or.inl h)))
  obtain ⟨s1, s2, s3⟩ := sendParts_stop env msg u p 0 part rest
    (NewMsgStatusForID msg.channel msg.id .Errored) hno
  refine ⟨?_, ?_, ?_⟩
  · simpa [Outcome.after, NewMsgStatusForID] using s1
  · simpa [Outcome.after, httpRequests_append, httpRequests] using s3
  · simpa [Outcome.after] using s2

/-- Witness for C3: two parts, the first call answered with status code 500. -/
theorem send_first_fails_witness :
    (Send (envTwoParts (fun _ => .response 500 "")) sampleMsg).status =
      some { channelUUID := "8eb23e93-5ecb-45ba-b726-3b064e0c56ab", id := 10,
             status := .Errored, externalID := none } ∧
    httpRequests (Send (envTwoParts (fun _ => .response 500 "")) sampleMsg).effects
      = [buildRequest sampleMsg "u" "p" "first"] ∧
    (Send (envTwoParts (fun _ => .response 500 "")) sampleMsg).err = none :=
  send_first_fails (envTwoParts (fun _ => .response 500 "")) sampleMsg "u" "p"
    ⟨by decide, by decide, by decide, by decide⟩ "first" ["second"] rfl
    (Or.inl (by
      show ¬ ((200 : Int) ≤ 500 ∧ (500 : Int) ≤ 299)
      decide))

end clicksend

namespace clicksend

open courier

/-- Counterexample to C4 as stated: two parts, the first accepted with message
id `id1`, the call of the second answered with status code 500.  Both calls are
issued, and the returned status is `Wired` with external id `id1`, not
`Errored` without external id. -/
theorem send_later_failure_counterexample :
    Configured sampleMsg.channel "u" "p" ∧
    partsOf (envTwoParts answersSecondFails) sampleMsg = ["first", "second"] ∧
    TransportOrNon2xx
      ((envTwoParts answersSecondFails).RequestHTTP 1
        (buildRequest sampleMsg "u" "p" "second")) ∧
    httpRequests (Send (envTwoParts answersSecondFails) sampleMsg).effects
      = [buildRequest sampleMsg "u" "p" "first", buildRequest sampleMsg "u" "p" "second"] ∧
    (Send (envTwoParts answersSecondFails) sampleMsg).status =
      some { channelUUID := "8eb23e93-5ecb-45ba-b726-3b064e0c56ab", id := 10,
             status := .Wired, externalID := some "id1" } ∧
    (Send (envTwoParts answersSecondFails) sampleMsg).status ≠
      some { channelUUID := "8eb23e93-5ecb-45ba-b726-3b064e0c56ab", id := 10,
             status := .Errored, externalID := none } := by
  refine ⟨⟨by decide, by decide, by decide, by decide⟩, rfl, ?_, rfl, rfl, by decide⟩
  show ¬ ((200 : Int) ≤ 500 ∧ (500 : Int) ≤ 299)
  decide

/-- C4, amended.  With valid configuration, if the parts before part `k` were
accepted (so that the call of part `k` is issued) and the call of part `k` ends
in a transport error or a response that is not 2xx, then the calls issued are
those of the parts up to `k` and no later one, `Send` returns no error, and the
status object is returned as it stands: `Errored` without external id when
`k = 0`, and `Wired` with the message id of part `k - 1` otherwise. -/
theorem send_stops_at_failure (env : Env) (msg : Msg) (u p : String)
    (hc : Configured msg.channel u p) (k : Nat) (part : String)
    (hk : (partsOf env msg)[k]? = some part)
    (hpre : ∀ j q, j < k → (partsOf env msg)[j]? = some q →
      ∃ id, Accepted env (env.RequestHTTP j (buildRequest msg u p q)) id)
    (hfail : TransportOrNon2xx (env.RequestHTTP k (buildRequest msg u p part))) :
    httpRequests (Send env msg).effects
      = ((partsOf env msg).take (k + 1)).map (buildRequest msg u p) ∧
    (Send env msg).err = none ∧
    (k = 0 → (Send env msg).status =
      some { channelUUID := msg.channel.uuid, id := msg.id, status := .Errored,
             externalID := none }) ∧
    (∀ j q id, k = j + 1 → (partsOf env msg)[j]? = some q →
      Accepted env (env.RequestHTTP j (buildRequest msg u p q)) id →
      (Send env msg).status =
        some { channelUUID := msg.channel.uuid, id := msg.id, status := .Wired,
               externalID := some id }) := by
  rw [send_configured env msg u p hc]
  obtain ⟨k', hk', h1, h2, h3, h4, h5, h6⟩ :=
    sendParts_run env msg u p (partsOf env msg) 0 (NewMsgStatusForID msg.channel msg.id .Errored)
  have hno := not_accepted_of_failed env _ (Or.inl hfail)
  have hkk : k' = k := by
    rcases Nat.lt_trichotomy k' k with hlt | heq | hgt
    · exfalso
      have hlen : k < (partsOf env msg).length := by
        by_contra hge
        rw [List.getElem?_eq_none (by omega)] at hk
        simp at hk
      have hget : (partsOf env msg)[k']? = some ((partsOf env msg)[k']) :=
        List.getElem?_eq_getElem (by omega)
      obtain ⟨id, hid⟩ := hpre k' _ hlt hget
      exact h2 _ hget id (by simpa using hid)
    · exact heq
    · exfalso
      obtain ⟨id, hid⟩ := h1 k part hgt hk
      exact hno id (by simpa using hid)
  subst hkk
  refine ⟨?_, ?_, ?_, ?_⟩
  · rw [httpRequests_after_newStatus, h3]
  · simpa [Outcome.after] using h4
  · intro h0
    simpa [Outcome.after, NewMsgStatusForID] using h5 h0
  · intro j q id hj hq hacc
    simpa [Outcome.after, NewMsgStatusForID] using h6 j q id hj hq (by simpa using hacc)

/-- Witness for C4, amended: the second of two parts fails after the first was
accepted with message id `id1`. -/
theorem send_stops_at_failure_witness :
    httpRequests (Send (envTwoParts answersSecondFails) sampleMsg).effects
      = ((partsOf (envTwoParts answersSecondFails) sampleMsg).take 2).map
          (buildRequest sampleMsg "u" "p") ∧
    (Send (envTwoParts answersSecondFails) sampleMsg).status =
      some { channelUUID := "8eb23e93-5ecb-45ba-b726-3b064e0c56ab", id := 10,
             status := .Wired, externalID := some "id1" } :=
  have h := send_stops_at_failure (envTwoParts answersSecondFails) sampleMsg "u" "p"
    ⟨by decide, by decide, by decide, by decide⟩ 1 "second" rfl
    (by
      intro j q hj hq
      have hj0 : j = 0 := by omega
      subst hj0
      have hp : q = "first" := by simpa [partsOf, envTwoParts] using hq.symm
      subst hp
      exact ⟨"id1", by decide, by decide, rfl, rfl⟩)
    (by
      show ¬ ((200 : Int) ≤ 500 ∧ (500 : Int) ≤ 299)
      decide)
  ⟨h.1, h.2.2.2 0 "first" "id1" rfl rfl ⟨by decide, by decide, rfl, rfl⟩⟩

/-- Counterexample to C5 as stated: one part, answered 200 with the body
`{"data":{"messages":[{"status":"SUCCESS"}]}}`, which reports `SUCCESS` and has no
message id.  The returned status is `Errored`, not `Wired`. -/
theorem send_success_without_id_counterexample :
    Configured sampleMsg.channel "u" "p" ∧
    partsOf (envOnePart (.response 200 bodySuccessNoID)) sampleMsg = ["Simple Message"] ∧
    SuccessWithoutID (envOnePart (.response 200 bodySuccessNoID))
      ((envOnePart (.response 200 bodySuccessNoID)).RequestHTTP 0
        (buildRequest sampleMsg "u" "p" "Simple Message")) ∧
    (Send (envOnePart (.response 200 bodySuccessNoID)) sampleMsg).status =
      some { channelUUID := "8eb23e93-5ecb-45ba-b726-3b064e0c56ab", id := 10,
             status := .Errored, externalID := none } ∧
    (Send (envOnePart (.response 200 bodySuccessNoID)) sampleMsg).status ≠
      some { channelUUID := "8eb23e93-5ecb-45ba-b726-3b064e0c56ab", id := 10,
             status := .Wired, externalID := none } :=
  ⟨⟨by decide, by decide, by decide, by decide⟩, rfl,
    ⟨by decide, by decide, by decide, by decide⟩, rfl, by decide⟩

/-- C5, amended.  For a single-part send with valid configuration whose exchange
returns 2xx with body status `SUCCESS` and no message id, the missing message id
is logged, the status is left as it was created: the returned status is
`Errored` with no external id, and `Send` returns no error. -/
theorem send_success_without_id (env : Env) (msg : Msg) (u p : String)
    (hc : Configured msg.channel u p) (part : String)
    (hparts : partsOf env msg = [part])
    (h : SuccessWithoutID env (env.RequestHTTP 0 (buildRequest msg u p part))) :
    (Send env msg).status =
      some { channelUUID := msg.channel.uuid, id := msg.id, status := .Errored,
             externalID := none } ∧
    loggedErrors (Send env msg).effects = ["unable to get message_id for message"] ∧
    httpRequests (Send env msg).effects = [buildRequest msg u p part] ∧
    (Send env msg).err = none := by
  rw [send_configured env msg u p hc, hparts]
  cases hres : env.RequestHTTP 0 (buildRequest msg u p part) with
  | failure e => rw [hres] at h; exact h.elim
  | response code body =>
    rw [hres] at h
    obtain ⟨h1, h2, h3, h4⟩ := h
    have hcode : Int.tdiv code 100 = 2 := (tdiv_hundred_eq_two code).2 ⟨h1, h2⟩
    simp [sendParts, hres, hcode, h3, h4, Outcome.after, NewMsgStatusForID, loggedErrors,
      httpRequests]

/-- Witness for C5, amended. -/
theorem send_success_without_id_witness :
    (Send (envOnePart (.response 200 bodySuccessNoID)) sampleMsg).status =
      some { channelUUID := "8eb23e93-5ecb-45ba-b726-3b064e0c56ab", id := 10,
             status := .Errored, externalID := none } ∧
    loggedErrors (Send (envOnePart (.response 200 bodySuccessNoID)) sampleMsg).effects
      = ["unable to get message_id for message"] :=
  have h := send_success_without_id (envOnePart (.response 200 bodySuccessNoID)) sampleMsg
    "u" "p" ⟨by decide, by decide, by decide, by decide⟩ "Simple Message" rfl
    ⟨by decide, by decide, by decide, by decide⟩
  ⟨h.1, h.2.1⟩

/-- C10.  With valid configuration, whatever the provider answers, `Send` returns
a status update whose status is `Errored` or `Wired`; an external id is set on it
exactly when the status is `Wired`; and when set it is the message id of the
last accepted part: part `j` was accepted with that id, every earlier part was
accepted, the part after it (if any) was not, and the calls issued are those of
the parts up to `j + 1`. -/
theorem send_status_and_external_id (env : Env) (msg : Msg) (u p : String)
    (hc : Configured msg.channel u p) :
    ∃ st, (Send env msg).status = some st ∧
      (st.status = .Errored ∨ st.status = .Wired) ∧
      (st.externalID ≠ none ↔ st.status = .Wired) ∧
      (∀ id, st.externalID = some id →
        ∃ j part, (partsOf env msg)[j]? = some part ∧
          Accepted env (env.RequestHTTP j (buildRequest msg u p part)) id ∧
          (∀ i q, i < j → (partsOf env msg)[i]? = some q →
            ∃ id1, Accepted env (env.RequestHTTP i (buildRequest msg u p q)) id1) ∧
          (∀ q, (partsOf env msg)[j + 1]? = some q →
            ∀ id1, ¬ Accepted env (env.RequestHTTP (j + 1) (buildRequest msg u p q)) id1) ∧
          httpRequests (Send env msg).effects
            = ((partsOf env msg).take (j + 2)).map (buildRequest msg u p)) := by
  rw [send_configured env msg u p hc]
  obtain ⟨k, hk, h1, h2, h3, h4, h5, h6⟩ :=
    sendParts_run env msg u p (partsOf env msg) 0 (NewMsgStatusForID msg.channel msg.id .Errored)
  cases k with
  | zero =>
    refine ⟨NewMsgStatusForID msg.channel msg.id .Errored, ?_, Or.inl rfl, ?_, ?_⟩
    · simpa [Outcome.after] using h5 rfl
    · simp [NewMsgStatusForID]
    · intro id hid
      simp [NewMsgStatusForID] at hid
  | succ j =>
    have hlen : j < (partsOf env msg).length := by omega
    have hget : (partsOf env msg)[j]? = some ((partsOf env msg)[j]) :=
      List.getElem?_eq_getElem hlen
    obtain ⟨id, hid⟩ := h1 j _ (by omega) hget
    have hst := h6 j _ id rfl hget hid
    refine ⟨{ NewMsgStatusForID msg.channel msg.id .Errored with
              status := .Wired, externalID := some id }, ?_, Or.inr rfl, ?_, ?_⟩
    · simpa [Outcome.after] using hst
    · simp
    · intro id2 hid2
      have hidd : id = id2 := by simpa using hid2
      subst hidd
      refine ⟨j, _, hget, by simpa using hid, ?_, ?_, ?_⟩
      · intro i q hi hq
        obtain ⟨id1, h⟩ := h1 i q (by omega) hq
        exact ⟨id1, by simpa using h⟩
      · intro q hq id1
        simpa using h2 q hq id1
      · rw [httpRequests_after_newStatus, h3]

/-- Witness for C10: two parts, the second fails after the first was accepted. -/
theorem send_status_and_external_id_witness :
    ∃ st, (Send (envTwoParts answersSecondFails) sampleMsg).status = some st ∧
      (st.status = .Errored ∨ st.status = .Wired) ∧
      (st.externalID ≠ none ↔ st.status = .Wired) :=
  have ⟨st, h1, h2, h3, _⟩ := send_status_and_external_id (envTwoParts answersSecondFails)
    sampleMsg "u" "p" ⟨by decide, by decide, by decide, by decide⟩
  ⟨st, h1, h2, h3⟩

end clicksend

/-! ## Temba Chat: properties of `receiveMessage` and `Send` -/

namespace tembachat

open courier

/-- C7.  For a payload whose type is neither `msg_in` nor `chat_started`,
`receiveMessage` reports the request as ignored and returns no message or event;
the report is its only effect, so no incoming message and no channel event is
created or written. -/
theorem receive_ignored (env : RecvEnv) (c : Channel) (payload : receivePayload)
    (h1 : payload.Type_ ≠ "msg_in") (h2 : payload.Type_ ≠ "chat_started") :
    (receiveMessage env c payload).events = [] ∧
    (receiveMessage env c payload).effects = [.requestIgnored ""] ∧
    (receiveMessage env c payload).err = env.WriteAndLogRequestIgnored "" := by
  simp [receiveMessage, h1, h2]

/-- Witness for C7: a payload of type `typing`. -/
theorem receive_ignored_witness :
    payloadUnknown.Type_ ≠ "msg_in" ∧ payloadUnknown.Type_ ≠ "chat_started" ∧
    (receiveMessage sampleRecvEnv sampleChannel payloadUnknown).events = [] ∧
    (receiveMessage sampleRecvEnv sampleChannel payloadUnknown).effects
      = [.requestIgnored ""] :=
  ⟨by decide, by decide,
   (receive_ignored sampleRecvEnv sampleChannel payloadUnknown (by decide) (by decide)).1,
   (receive_ignored sampleRecvEnv sampleChannel payloadUnknown (by decide) (by decide)).2.1⟩

/-- C8.  For a payload of type `chat_started` whose `chat.chat_id` passes the
webchat shape check and whose event write succeeds, `receiveMessage` returns
exactly one event, a channel event of kind new-conversation addressed to
`webchat:<chat.chat_id>`; it creates no incoming message; and the fields of
`msg` play no role in the result. -/
theorem receive_chat_started (env : RecvEnv) (c : Channel) (payload : receivePayload)
    (ht : payload.Type_ = "chat_started")
    (hv : env.validateURN
      { scheme := "webchat", path := payload.Chat.ChatID, query := "", display := "" } = none)
    (hw : env.WriteChannelEvent
      { channelUUID := c.uuid, eventType := .NewConversation,
        urn := { scheme := "webchat", path := payload.Chat.ChatID, query := "",
                 display := "" } } = none) :
    ∃ evt : ChannelEvent,
      (receiveMessage env c payload).events = [.channelEvent evt] ∧
      evt.eventType = .NewConversation ∧
      evt.channelUUID = c.uuid ∧
      evt.urn.toString = "webchat:" ++ payload.Chat.ChatID ∧
      (receiveMessage env c payload).effects
        = [.newChannelEvent evt, .writeChannelEvent evt, .writeChannelEventSuccess evt] ∧
      (∀ m : receivePayloadMsg,
        receiveMessage env c { payload with Msg := m } = receiveMessage env c payload) := by
  have hne : payload.Type_ ≠ "msg_in" := by
    rw [ht]
    decide
  refine ⟨{ channelUUID := c.uuid, eventType := .NewConversation,
            urn := { scheme := "webchat", path := payload.Chat.ChatID, query := "",
                     display := "" } }, ?_, rfl, rfl, ?_, ?_, ?_⟩
  · simp [receiveMessage, hne, ht, NewURNFromParts, WebChatScheme, hv, NewChannelEvent, hw]
  · simp [URN.toString]
  · simp [receiveMessage, hne, ht, NewURNFromParts, WebChatScheme, hv, NewChannelEvent, hw]
  · intro m
    simp [receiveMessage, hne, ht]

/-- Witness for C8: the scenario with chat id `c1`. -/
theorem receive_chat_started_witness :
    ∃ evt : ChannelEvent,
      (receiveMessage sampleRecvEnv sampleChannel payloadChatStarted).events
        = [.channelEvent evt] ∧
      evt.eventType = .NewConversation ∧
      evt.urn.toString = "webchat:c1" :=
  have ⟨evt, h1, h2, _, h4, _⟩ :=
    receive_chat_started sampleRecvEnv sampleChannel payloadChatStarted rfl rfl rfl
  ⟨evt, h1, h2, h4⟩

/-- Counterexample to C9 as stated: the configured send URL is
`http://[::1/send`, which does not parse.  `http.NewRequest` returns a nil
request, so the call of `RequestHTTP` carries no request: no HTTP call carrying
the text is issued. -/
theorem temba_send_bad_url_counterexample :
    sendURLOf msgBadURL = "http://[::1/send?channel=8eb23e93-5ecb-45ba-b726-3b064e0c56ab" ∧
    NewRequest (envConst (.response 200 "")) "POST" (sendURLOf msgBadURL) (payloadOf msgBadURL)
      = none ∧
    httpRequests (Send (envConst (.response 200 "")) msgBadURL).effects = [] ∧
    httpRequests (Send (envConst (.response 200 "")) msgBadURL).effects
      ≠ [requestOf msgBadURL] :=
  ⟨by decide, rfl, rfl, by
    intro h
    have h2 : httpRequests (Send (envConst (.response 200 "")) msgBadURL).effects = [] := rfl
    rw [h2] at h
    exact List.noConfusion h⟩

/-- C9, amended.  For every outgoing message whose send URL parses, `Send`
issues exactly one HTTP call, whose payload carries the whole text of the
message, and returns with no error; the returned status is `Wired` exactly when
the call completed without transport error and with a 2xx status code, and
`Errored` in every other case; no external id is set. -/
theorem temba_send_outcome (env : Env) (msg : Msg)
    (hurl : env.parseURL (sendURLOf msg) = true) :
    httpRequests (Send env msg).effects = [requestOf msg] ∧
    httpCallCount (Send env msg).effects = 1 ∧
    (requestOf msg).body.Text = msg.text ∧
    (Send env msg).returned = true ∧
    (Send env msg).err = none ∧
    ∃ st, (Send env msg).status = some st ∧
      (st.status = .Wired ↔ Completed2xx (env.RequestHTTP (requestOf msg))) ∧
      (¬ Completed2xx (env.RequestHTTP (requestOf msg)) → st.status = .Errored) ∧
      st.externalID = none ∧
      externalIDsSet (Send env msg).effects = [] := by
  have hreq : NewRequest env "POST" (sendURLOf msg) (payloadOf msg) = some (requestOf msg) := by
    simp [NewRequest, hurl, requestOf]
  cases hres : env.RequestHTTP (requestOf msg) with
  | failure e =>
    refine ⟨by simp [Send, hreq, finish, hres, httpRequests],
      by simp [Send, hreq, finish, hres, httpCallCount], rfl,
      by simp [Send, hreq, finish, hres], by simp [Send, hreq, finish, hres], ?_⟩
    exact ⟨(NewMsgStatusForID msg.channel msg.id .Wired).SetStatus .Errored,
      by simp [Send, hreq, finish, hres],
      by simp [Completed2xx, MsgStatus.SetStatus, NewMsgStatusForID],
      fun _ => rfl, rfl, by simp [Send, hreq, finish, hres, externalIDsSet]⟩
  | response code body =>
    by_cases hc : Int.tdiv code 100 = 2
    · have h2 := (tdiv_hundred_eq_two code).1 hc
      refine ⟨by simp [Send, hreq, finish, hres, hc, httpRequests],
        by simp [Send, hreq, finish, hres, hc, httpCallCount], rfl,
        by simp [Send, hreq, finish, hres, hc], by simp [Send, hreq, finish, hres, hc], ?_⟩
      exact ⟨NewMsgStatusForID msg.channel msg.id .Wired,
        by simp [Send, hreq, finish, hres, hc], by simp [Completed2xx, NewMsgStatusForID, h2],
        fun h => absurd h2 h, rfl, by simp [Send, hreq, finish, hres, hc, externalIDsSet]⟩
    · have h2 : ¬ (200 ≤ code ∧ code ≤ 299) := fun h => hc ((tdiv_hundred_eq_two code).2 h)
      refine ⟨by simp [Send, hreq, finish, hres, hc, httpRequests],
        by simp [Send, hreq, finish, hres, hc, httpCallCount], rfl,
        by simp [Send, hreq, finish, hres, hc], by simp [Send, hreq, finish, hres, hc], ?_⟩
      exact ⟨(NewMsgStatusForID msg.channel msg.id .Wired).SetStatus .Errored,
        by simp [Send, hreq, finish, hres, hc],
        by simp [Completed2xx, MsgStatus.SetStatus, NewMsgStatusForID, h2],
        fun _ => rfl, rfl, by simp [Send, hreq, finish, hres, hc, externalIDsSet]⟩

/-- Witness for C9, amended: the default send URL and a call answered 200. -/
theorem temba_send_outcome_witness :
    sampleParseURL (sendURLOf sampleMsg) = true ∧
    httpRequests (Send (envConst (.response 200 "")) sampleMsg).effects
      = [requestOf sampleMsg] ∧
    httpCallCount (Send (envConst (.response 200 "")) sampleMsg).effects = 1 ∧
    (Send (envConst (.response 200 "")) sampleMsg).err = none :=
  have h := temba_send_outcome (envConst (.response 200 "")) sampleMsg (by decide)
  ⟨by decide, h.1, h.2.1, h.2.2.2.2.1⟩

end tembachat

/-! ## The status discipline in both adapters -/

namespace clicksend

open courier

/-- The effects of the loop respect the pessimistic discipline once the status
object exists, whatever the outcome of the most recent exchange. -/
theorem sendParts_pessimistic (env : Env) (msg : Msg) (u p : String) :
    ∀ (parts : List String) (i : Nat) (st : MsgStatus) (b : Bool),
      pessimisticFrom true b (sendParts env msg u p i parts st).effects = true := by
  intro parts
  induction parts with
  | nil =>
    intro i st b
    simp [sendParts, pessimisticFrom]
  | cons part rest ih =>
    intro i st b
    rw [sendParts]
    cases hres : env.RequestHTTP i (buildRequest msg u p part) with
    | failure e => simp [pessimisticFrom]
    | response code body =>
      by_cases hc : Int.tdiv code 100 = 2
      · by_cases hs : (env.GetString body statusPath).1 = "SUCCESS"
        · by_cases hid : (env.GetString body messageIDPath).2 = none
          · simp [hc, hs, hid, Outcome.after, pessimisticFrom, HTTPResult.is2xx, ih]
          · simp [hc, hs, hid, pessimisticFrom]
        · simp [hc, hs, pessimisticFrom]
      · simp [hc, pessimisticFrom]

end clicksend

namespace courier

/-- Counterexample to C6 as stated: on a transport error the Temba Chat `Send`
has created the status update as `Wired` before the HTTP call and sets it to
`Errored` afterwards, which the pessimistic discipline excludes. -/
theorem temba_send_created_wired_counterexample :
    (tembachat.Send (tembachat.envConst (.failure "connection refused"))
        tembachat.sampleMsg).effects
      = [.newStatus "8eb23e93-5ecb-45ba-b726-3b064e0c56ab" 10 .Wired,
         .http (tembachat.requestOf tembachat.sampleMsg) (.failure "connection refused"),
         .setStatus .Errored] ∧
    pessimistic (tembachat.Send (tembachat.envConst (.failure "connection refused"))
        tembachat.sampleMsg).effects = false :=
  ⟨rfl, rfl⟩

/-- C6, amended.  The ClickSend `Send` creates the status update as `Errored`
before any HTTP call, changes its status only to `Wired` and only after a
completed 2xx exchange, and never downgrades it.  The Temba Chat `Send` creates
the status update as `Wired` before its single call of `RequestHTTP` and sets it
to `Errored` after the call exactly when the call returned and did not complete
with a 2xx status code. -/
theorem status_creation_discipline :
    (∀ (env : clicksend.Env) (msg : Msg), pessimistic (clicksend.Send env msg).effects = true) ∧
    (∀ (env : tembachat.Env) (msg : Msg),
      (tembachat.Send env msg).effects =
        [.newStatus msg.channel.uuid msg.id .Wired, tembachat.callEffect env msg]
        ++ (match tembachat.callResult env msg with
            | some res => if res.is2xx then [] else [.setStatus .Errored]
            | none => [])) := by
  constructor
  · intro env msg
    unfold clicksend.Send
    by_cases hu : msg.channel.StringConfigForKey ConfigUsername "" = ""
    · simp [hu, pessimistic, pessimisticFrom]
    · by_cases hp : msg.channel.StringConfigForKey ConfigPassword "" = ""
      · simp [hu, hp, pessimistic, pessimisticFrom]
      · simp [hu, hp, pessimistic, pessimisticFrom, Outcome.after,
          clicksend.sendParts_pessimistic]
  · intro env msg
    have key : ∀ (call : Effect tembachat.sendPayload) (res : HTTPResult),
        (tembachat.finish msg (NewMsgStatusForID msg.channel msg.id .Wired) call res).effects
          = [.newStatus msg.channel.uuid msg.id .Wired, call]
            ++ (if res.is2xx then [] else [.setStatus .Errored]) := by
      intro call res
      cases res with
      | failure e => simp [tembachat.finish, HTTPResult.is2xx]
      | response code body =>
        by_cases hc : Int.tdiv code 100 = 2 <;> simp [tembachat.finish, hc, HTTPResult.is2xx]
    cases hreq : tembachat.NewRequest env "POST" (tembachat.sendURLOf msg)
        (tembachat.payloadOf msg) with
    | some r => simp [tembachat.Send, tembachat.callEffect, tembachat.callResult, hreq, key]
    | none =>
      cases hnil : env.RequestHTTPNil with
      | some res =>
        simp [tembachat.Send, tembachat.callEffect, tembachat.callResult, hreq, hnil, key]
      | none => simp [tembachat.Send, tembachat.callEffect, tembachat.callResult, hreq, hnil]

end courier
